import Mathlib

/-!
Shallow embedding of the Chirp microblogging backend (Express + Mongoose).

The embedding follows the route handlers in the source:
- user routes (profile, follow, unfollow) — users router
- tweet routes (create, timeline, explore, replies, like/unlike,
  retweet/unretweet, delete) — tweets router
- search route — routes/search.js
Mongo documents become Lean structures; ObjectIds become `Nat`;
`Array.prototype.push` becomes append; `Array.prototype.filter` becomes
`List.filter`; `includes` becomes `List.contains`; Mongo
`find(q).sort(createdAt desc).limit(n)` becomes
`filter` + `insertionSort` (by descending timestamp) + `take n`.
Template-string notification messages are kept as their constant suffix
(the `sender.name` prefix carries no logic).  Cosmetic user fields
(bio, location, website, profileImage) are omitted: no claim touches them.
JS `String.prototype.trim` is modelled by `jsTrim`; JS `.length` counts
UTF-16 units, which agrees with Lean char counts on the ASCII contents
used here.
-/

namespace Chirp

/-- JS `String.prototype.trim`: strip whitespace from both ends. -/
def jsTrim (s : String) : String :=
  String.mk (((s.data.dropWhile Char.isWhitespace).reverse.dropWhile Char.isWhitespace).reverse)

/-- The `enum` of the Notification schema. -/
inductive NotifType where
  | like | retweet | reply | follow | mention
deriving DecidableEq, Repr

/-- User document: identity, profile fields, mirrored follow sets. -/
structure User where
  id : Nat
  name : String
  username : String
  email : String
  followers : List Nat
  following : List Nat
deriving DecidableEq, Repr

/-- Tweet document (Tweet.js schema): author, content, engagement sets,
optional parent reference, creation timestamp. -/
structure Tweet where
  id : Nat
  user : Nat
  content : String
  likes : List Nat
  retweets : List Nat
  replyTo : Option Nat
  createdAt : Nat
deriving DecidableEq, Repr

/-- Notification document (Notification.js schema). -/
structure Notification where
  recipient : Nat
  sender : Nat
  type : NotifType
  tweet : Option Nat
  message : String
  read : Bool
deriving DecidableEq, Repr

/-- The persistent store: the three collections the core touches. -/
structure St where
  users : List User
  tweets : List Tweet
  notifs : List Notification
deriving DecidableEq, Repr

/-- The status+message error pairs the handlers return. -/
inductive Err where
  | userNotFound      -- 404 User not found
  | alreadyFollowing  -- 400 Already following this user
  | selfFollow        -- 400 You cannot follow yourself
  | notFollowing      -- 400 You are not following this user
  | tweetNotFound     -- 404 Tweet / Original tweet not found
  | alreadyLiked      -- 400 Tweet already liked
  | notLiked          -- 400 Tweet not liked
  | alreadyRetweeted  -- 400 Tweet already retweeted
  | notRetweeted      -- 400 Tweet not retweeted
  | notAuthorized     -- 401 User not authorized
  | contentRequired   -- 400 Tweet content is required
  | contentTooLong    -- 400 Tweet cannot exceed 280 characters
  | queryRequired     -- 400 Search query is required
  | serverError       -- 500 Server error (the catch branch)
deriving DecidableEq, Repr

instance {ε α : Type} [DecidableEq ε] [DecidableEq α] : DecidableEq (Except ε α)
  | .error e, .error f =>
    if h : e = f then .isTrue (congrArg Except.error h)
    else .isFalse (fun he => h (Except.error.inj he))
  | .error _, .ok _ => .isFalse (fun he => Except.noConfusion he)
  | .ok _, .error _ => .isFalse (fun he => Except.noConfusion he)
  | .ok x, .ok y =>
    if h : x = y then .isTrue (congrArg Except.ok h)
    else .isFalse (fun he => h (Except.ok.inj he))

/-- `User.findById`. -/
def findUser (s : St) (uid : Nat) : Option User :=
  s.users.find? (fun u => u.id == uid)

/-- A `save()` of a user document fetched by id: replace the record in place. -/
def updateUser (s : St) (uid : Nat) (f : User → User) : St :=
  { s with users := s.users.map (fun u => if u.id == uid then f u else u) }

/-- `Tweet.findById`. -/
def findTweet (s : St) (tid : Nat) : Option Tweet :=
  s.tweets.find? (fun t => t.id == tid)

/-- A `save()` of a tweet document fetched by id. -/
def updateTweet (s : St) (tid : Nat) (f : Tweet → Tweet) : St :=
  { s with tweets := s.tweets.map (fun t => if t.id == tid then f t else t) }

/-- POST /api/users/:id/follow — checks in source order: target exists,
already-following, self-follow; then push to both mirrored sets and
create a `follow` notification. -/
def follow (s : St) (actorId targetId : Nat) : Except Err St :=
  match findUser s targetId with
  | none => .error .userNotFound
  | some target =>
    if target.followers.contains actorId then .error .alreadyFollowing
    else if actorId = targetId then .error .selfFollow
    else
      let s1 := updateUser s targetId
        (fun u => { u with followers := u.followers ++ [actorId] })
      let s2 := updateUser s1 actorId
        (fun u => { u with following := u.following ++ [targetId] })
      .ok { s2 with notifs := s2.notifs ++
        [{ recipient := targetId, sender := actorId, type := .follow,
           tweet := none, message := "started following you", read := false }] }

/-- POST /api/users/:id/unfollow — target exists, currently-following check,
then filter the mirrored sets. -/
def unfollow (s : St) (actorId targetId : Nat) : Except Err St :=
  match findUser s targetId with
  | none => .error .userNotFound
  | some target =>
    if target.followers.contains actorId then
      let s1 := updateUser s targetId
        (fun u => { u with followers := u.followers.filter (fun i => i != actorId) })
      let s2 := updateUser s1 actorId
        (fun u => { u with following := u.following.filter (fun i => i != targetId) })
      .ok s2
    else .error .notFollowing

/-- POST /api/tweets/:id/like — 404, already-liked check, push the like,
notification unless self-like. -/
def like (s : St) (userId tweetId : Nat) : Except Err St :=
  match findTweet s tweetId with
  | none => .error .tweetNotFound
  | some t =>
    if t.likes.contains userId then .error .alreadyLiked
    else
      let s1 := updateTweet s tweetId
        (fun tw => { tw with likes := tw.likes ++ [userId] })
      if t.user = userId then .ok s1
      else .ok { s1 with notifs := s1.notifs ++
        [{ recipient := t.user, sender := userId, type := .like,
           tweet := some tweetId, message := "liked your chirp", read := false }] }

/-- POST /api/tweets/:id/unlike — 404, not-liked check, filter the like out. -/
def unlike (s : St) (userId tweetId : Nat) : Except Err St :=
  match findTweet s tweetId with
  | none => .error .tweetNotFound
  | some t =>
    if t.likes.contains userId then
      .ok (updateTweet s tweetId
        (fun tw => { tw with likes := tw.likes.filter (fun i => i != userId) }))
    else .error .notLiked

/-- POST /api/tweets/:id/retweet — symmetric to like. -/
def retweet (s : St) (userId tweetId : Nat) : Except Err St :=
  match findTweet s tweetId with
  | none => .error .tweetNotFound
  | some t =>
    if t.retweets.contains userId then .error .alreadyRetweeted
    else
      let s1 := updateTweet s tweetId
        (fun tw => { tw with retweets := tw.retweets ++ [userId] })
      if t.user = userId then .ok s1
      else .ok { s1 with notifs := s1.notifs ++
        [{ recipient := t.user, sender := userId, type := .retweet,
           tweet := some tweetId, message := "retweeted your chirp", read := false }] }

/-- POST /api/tweets/:id/unretweet — symmetric to unlike. -/
def unretweet (s : St) (userId tweetId : Nat) : Except Err St :=
  match findTweet s tweetId with
  | none => .error .tweetNotFound
  | some t =>
    if t.retweets.contains userId then
      .ok (updateTweet s tweetId
        (fun tw => { tw with retweets := tw.retweets.filter (fun i => i != userId) }))
    else .error .notRetweeted

/-- POST /api/tweets — content checks in source order (`trim === ''` then
`length > 280`, both on the raw `content`), parent lookup when `replyTo`
is given, `reply` notification (referencing the NEW tweet's id) unless the
parent is the author's own, then save.  `newId`/`now` stand for the
generated ObjectId and timestamp. -/
def createPost (s : St) (authorId : Nat) (content : String) (replyTo : Option Nat)
    (newId now : Nat) : Except Err St :=
  if jsTrim content = "" then .error .contentRequired
  else if content.length > 280 then .error .contentTooLong
  else
    match replyTo with
    | none =>
      .ok { s with tweets := s.tweets ++
        [{ id := newId, user := authorId, content := content, likes := [],
           retweets := [], replyTo := none, createdAt := now }] }
    | some pid =>
      match findTweet s pid with
      | none => .error .tweetNotFound
      | some orig =>
        let withNotif :=
          if orig.user = authorId then s.notifs
          else s.notifs ++
            [{ recipient := orig.user, sender := authorId, type := .reply,
               tweet := some newId, message := "replied to your chirp", read := false }]
        .ok { s with
          tweets := s.tweets ++
            [{ id := newId, user := authorId, content := content, likes := [],
               retweets := [], replyTo := some pid, createdAt := now }],
          notifs := withNotif }

/-- DELETE /api/tweets/:id — 404, ownership check, then `deleteOne` on the
tweet, `deleteMany replyTo = id` (direct replies only), and
`deleteMany tweet = id` on notifications. -/
def deletePost (s : St) (requesterId tweetId : Nat) : Except Err St :=
  match findTweet s tweetId with
  | none => .error .tweetNotFound
  | some t =>
    if t.user = requesterId then
      let t1 := s.tweets.filter (fun p => p.id != tweetId)
      let t2 := t1.filter (fun p => p.replyTo != some tweetId)
      .ok { s with tweets := t2,
                   notifs := s.notifs.filter (fun n => n.tweet != some tweetId) }
    else .error .notAuthorized

/-- The comparison behind `.sort(\x7b createdAt: -1 \x7d)`: `a` may come
before `b` when `a` is at least as recent. -/
def laterFirst (a b : Tweet) : Prop := b.createdAt ≤ a.createdAt

instance : DecidableRel laterFirst := fun a b => Nat.decLe b.createdAt a.createdAt

instance : IsTotal Tweet laterFirst := ⟨fun a b => Nat.le_total b.createdAt a.createdAt⟩

instance : IsTrans Tweet laterFirst := ⟨fun _ _ _ hab hbc => Nat.le_trans hbc hab⟩

/-- `.sort(\x7b createdAt: -1 \x7d)`: order by creation time descending. -/
def sortByCreatedDesc (l : List Tweet) : List Tweet :=
  l.insertionSort laterFirst

/-- `Tweet.countDocuments(\x7b replyTo: tid \x7d)`. -/
def replyCountOf (s : St) (tid : Nat) : Nat :=
  (s.tweets.filter (fun p => p.replyTo == some tid)).length

/-- The response object every listing endpoint builds per tweet
(`likeCount`, `retweetCount`, per-read `replyCount`, viewer flags). -/
structure FormattedTweet where
  id : Nat
  content : String
  user : Nat
  createdAt : Nat
  likeCount : Nat
  retweetCount : Nat
  replyCount : Nat
  isLiked : Bool
  isRetweeted : Bool
deriving DecidableEq, Repr

/-- The per-tweet formatting step shared by the listing handlers:
`req.user ? tweet.likes.includes(req.user._id) : false` and friends. -/
def formatTweet (s : St) (viewer : Option Nat) (t : Tweet) : FormattedTweet :=
  { id := t.id, content := t.content, user := t.user, createdAt := t.createdAt,
    likeCount := t.likes.length, retweetCount := t.retweets.length,
    replyCount := replyCountOf s t.id,
    isLiked := match viewer with | some v => t.likes.contains v | none => false,
    isRetweeted := match viewer with | some v => t.retweets.contains v | none => false }

/-- GET /api/tweets/timeline (protected, viewer = uid): tweets whose author
is in `following ++ [uid]` and whose `replyTo` is null, newest first,
limit 50, formatted.  `none` models the crash when the authenticated
user's record is missing. -/
def timeline (s : St) (uid : Nat) : Option (List FormattedTweet) :=
  (findUser s uid).map (fun u =>
    let followed := u.following ++ [uid]
    ((sortByCreatedDesc (s.tweets.filter
        (fun t => followed.contains t.user && t.replyTo == none))).take 50).map
      (formatTweet s (some uid)))

/-- GET /api/tweets/explore (public): all top-level tweets, newest first,
limit 50, formatted against the (optional) viewer. -/
def explore (s : St) (viewer : Option Nat) : List FormattedTweet :=
  ((sortByCreatedDesc (s.tweets.filter (fun t => t.replyTo == none))).take 50).map
    (formatTweet s viewer)

/-- GET /api/tweets/:id/replies (public): all tweets with `replyTo = tid`,
newest first (no limit), formatted.  The echoed `replyTo: \x7b _id \x7d` field
of the response is omitted (constant, no logic). -/
def repliesOf (s : St) (viewer : Option Nat) (tid : Nat) : List FormattedTweet :=
  (sortByCreatedDesc (s.tweets.filter (fun t => t.replyTo == some tid))).map
    (formatTweet s viewer)

/-!
The search route forwards the raw query to MongoDB as
`\x7b content: \x7b $regex: q, $options: i \x7d \x7d`.  The embedding below models the
PCRE core that operator applies: literals, `.`, escapes (`\d \D \w \W \s
\S \n \t \r` and escaped literals), bracket classes with ranges and
negation, the quantifiers `* + ?` and `\x7bm\x7d \x7bm,\x7d \x7bm,n\x7d`, grouping,
alternation, and the `^`/`$` anchors at the pattern ends — all matched
case-insensitively (option `i`), with unanchored substring search by
default.  A pattern the parser rejects is modelled as the route's catch
branch (500), which is also where MongoDB's own regex errors land;
constructs outside regular languages (word boundaries `\b`/`\B`,
lookaround, backreferences) and mid-pattern anchors are conservatively
rejected the same way. -/

/-- One item of a bracket character class: a single character or a range. -/
inductive ClassItem where
  | single (c : Char)
  | range (lo hi : Char)
deriving DecidableEq, Repr

/-- A single-character matcher: a possibly negated set of items.  Literals,
`.`, the `\d`-style escapes and bracket classes all become one of these. -/
structure CharClass where
  neg : Bool
  items : List ClassItem
deriving DecidableEq, Repr

/-- The class of one literal character. -/
def litClass (c : Char) : CharClass := { neg := false, items := [.single c] }

/-- `.`: any character except newline (PCRE default, no dotall option). -/
def dotClass : CharClass := { neg := true, items := [.single '\n'] }

/-- `\d`. -/
def digitItems : List ClassItem := [.range '0' '9']

/-- `\w`. -/
def wordItems : List ClassItem :=
  [.range 'a' 'z', .range 'A' 'Z', .range '0' '9', .single '_']

/-- `\s` (space, tab, newline, carriage return, vertical tab, form feed). -/
def spaceItems : List ClassItem :=
  [.single ' ', .single '\t', .single '\n', .single '\r',
   .single (Char.ofNat 11), .single (Char.ofNat 12)]

/-- Does one class item cover the character? -/
def itemHolds (it : ClassItem) (c : Char) : Bool :=
  match it with
  | .single d => d == c
  | .range lo hi => decide (lo ≤ c) && decide (c ≤ hi)

/-- Caseless class membership (the `i` option): the class hits when it
covers the character or either of its case variants. -/
def classHolds (cc : CharClass) (c : Char) : Bool :=
  let hit := cc.items.any (fun it =>
    itemHolds it c || itemHolds it c.toLower || itemHolds it c.toUpper)
  if cc.neg then !hit else hit

/-- Regular-expression abstract syntax: the regular core of the PCRE
patterns `$regex` applies. -/
inductive Regex where
  | fail
  | eps
  | cls (cc : CharClass)
  | cat (r1 r2 : Regex)
  | alt (r1 r2 : Regex)
  | star (r : Regex)
deriving DecidableEq, Repr

/-- Does the regex accept the empty string? -/
def nullable : Regex → Bool
  | .fail => false
  | .eps => true
  | .cls _ => false
  | .cat r1 r2 => nullable r1 && nullable r2
  | .alt r1 r2 => nullable r1 || nullable r2
  | .star _ => true

/-- Brzozowski derivative: the residual language after consuming `c`. -/
def deriv (r : Regex) (c : Char) : Regex :=
  match r with
  | .fail => .fail
  | .eps => .fail
  | .cls cc => if classHolds cc c then .eps else .fail
  | .cat r1 r2 =>
    if nullable r1 then .alt (.cat (deriv r1 c) r2) (deriv r2 c)
    else .cat (deriv r1 c) r2
  | .alt r1 r2 => .alt (deriv r1 c) (deriv r2 c)
  | .star r1 => .cat (deriv r1 c) (.star r1)

/-- Whole-string match (`^pat$`). -/
def matchesFull (r : Regex) : List Char → Bool
  | [] => nullable r
  | c :: cs => matchesFull (deriv r c) cs

/-- Match starting at the first position (`^pat`). -/
def matchesFromStart (r : Regex) : List Char → Bool
  | [] => nullable r
  | c :: cs => nullable r || matchesFromStart (deriv r c) cs

/-- Match ending at the last position (`pat$`). -/
def matchesToEnd (r : Regex) : List Char → Bool
  | [] => nullable r
  | c :: cs => matchesFull r (c :: cs) || matchesToEnd r cs

/-- Unanchored search: the pattern matches at some position. -/
def matchesWithin (r : Regex) : List Char → Bool
  | [] => nullable r
  | c :: cs => matchesFromStart r (c :: cs) || matchesWithin r cs

/-- A parsed pattern: the body plus the end anchors it carried. -/
structure Anchored where
  anchorStart : Bool
  anchorEnd : Bool
  r : Regex
deriving DecidableEq, Repr

/-- `$regex` acceptance: anchors select which positions may match. -/
def regexAccepts (a : Anchored) (s : List Char) : Bool :=
  match a.anchorStart, a.anchorEnd with
  | true, true => matchesFull a.r s
  | true, false => matchesFromStart a.r s
  | false, true => matchesToEnd a.r s
  | false, false => matchesWithin a.r s

/-- Parse a leading run of digits. -/
def parseDigits (cs : List Char) : Option (Nat × List Char) :=
  let ds := cs.takeWhile Char.isDigit
  if ds.isEmpty then none
  else some (ds.foldl (fun n c => n * 10 + (c.toNat - 48)) 0, cs.drop ds.length)

/-- A `\x7bm\x7d` / `\x7bm,\x7d` / `\x7bm,n\x7d` repetition bound. -/
inductive RepBound where
  | exact (m : Nat)
  | atLeast (m : Nat)
  | between (m n : Nat)
deriving DecidableEq, Repr

/-- Parse the inside of a brace quantifier, including the closing brace. -/
def parseBounds (cs : List Char) : Option (RepBound × List Char) :=
  match parseDigits cs with
  | none => none
  | some (m, rest) =>
    match rest with
    | '}' :: rest2 => some (.exact m, rest2)
    | ',' :: '}' :: rest2 => some (.atLeast m, rest2)
    | ',' :: rest2 =>
      match parseDigits rest2 with
      | none => none
      | some (n, rest3) =>
        match rest3 with
        | '}' :: rest4 => some (.between m n, rest4)
        | _ => none
    | _ => none

/-- `k` concatenated copies of `r`. -/
def repeatCat (r : Regex) : Nat → Regex
  | 0 => .eps
  | k + 1 => .cat r (repeatCat r k)

/-- `k` concatenated copies of `r?`. -/
def repeatOpt (r : Regex) : Nat → Regex
  | 0 => .eps
  | k + 1 => .cat (.alt r .eps) (repeatOpt r k)

/-- An escape inside a bracket class, as class items. -/
def escClassItems (c : Char) : Option (List ClassItem) :=
  if c == 'd' then some digitItems
  else if c == 'w' then some wordItems
  else if c == 's' then some spaceItems
  else if c == 'n' then some [.single '\n']
  else if c == 't' then some [.single '\t']
  else if c == 'r' then some [.single '\r']
  else if c == 'D' || c == 'W' || c == 'S' || c == 'b' || c == 'B' then none
  else some [.single c]

/-- A top-level escape, as a character class. -/
def escAtom (c : Char) : Option CharClass :=
  if c == 'd' then some { neg := false, items := digitItems }
  else if c == 'D' then some { neg := true, items := digitItems }
  else if c == 'w' then some { neg := false, items := wordItems }
  else if c == 'W' then some { neg := true, items := wordItems }
  else if c == 's' then some { neg := false, items := spaceItems }
  else if c == 'S' then some { neg := true, items := spaceItems }
  else if c == 'n' then some (litClass '\n')
  else if c == 't' then some (litClass '\t')
  else if c == 'r' then some (litClass '\r')
  else if c == 'b' || c == 'B' || c == 'A' || c == 'z' || c == 'Z' then none
  else some (litClass c)

/-- Items of a bracket class, up to and including the closing bracket.
A trailing or leading `-` is a literal, reversed ranges are rejected, an
unterminated class is rejected. -/
def parseClassItems : Nat → List Char → Option (List ClassItem × List Char)
  | 0, _ => none
  | _ + 1, [] => none
  | _ + 1, ']' :: rest => some ([], rest)
  | n + 1, '\\' :: c :: rest =>
    match escClassItems c, parseClassItems n rest with
    | some its, some (more, rest2) => some (its ++ more, rest2)
    | _, _ => none
  | n + 1, c1 :: '-' :: c2 :: rest =>
    if c2 == ']' then some ([.single c1, .single '-'], rest)
    else if decide (c1 ≤ c2) then
      match parseClassItems n rest with
      | some (more, rest2) => some (.range c1 c2 :: more, rest2)
      | none => none
    else none
  | n + 1, c :: rest =>
    match parseClassItems n rest with
    | some (more, rest2) => some (.single c :: more, rest2)
    | none => none

/-- A bracket class after the opening bracket: optional `^` negation, and
`]` as the first item is a literal. -/
def parseClass (n : Nat) (cs : List Char) : Option (CharClass × List Char) :=
  let negp := match cs with
    | '^' :: rest => (true, rest)
    | _ => (false, cs)
  match negp.2 with
  | ']' :: rest =>
    match parseClassItems n rest with
    | some (its, rest2) => some ({ neg := negp.1, items := .single ']' :: its }, rest2)
    | none => none
  | cs1 =>
    match parseClassItems n cs1 with
    | some (its, rest2) => some ({ neg := negp.1, items := its }, rest2)
    | none => none

mutual

/-- Alternation level: `concat ('|' alternation)?`. -/
def parseAlt : Nat → List Char → Option (Regex × List Char)
  | 0, _ => none
  | n + 1, cs =>
    match parseCat n cs with
    | none => none
    | some (r1, rest) =>
      match rest with
      | '|' :: rest2 =>
        match parseAlt n rest2 with
        | some (r2, rest3) => some (.alt r1 r2, rest3)
        | none => none
      | _ => some (r1, rest)

/-- Concatenation level: a run of quantified atoms, stopping at `|`, `)`
or the end (an empty run is the empty regex, as in PCRE). -/
def parseCat : Nat → List Char → Option (Regex × List Char)
  | 0, _ => none
  | n + 1, cs =>
    match cs with
    | [] => some (.eps, [])
    | ')' :: _ => some (.eps, cs)
    | '|' :: _ => some (.eps, cs)
    | _ =>
      match parseRep n cs with
      | none => none
      | some (r1, rest1) =>
        match parseCat n rest1 with
        | none => none
        | some (r2, rest2) => some (.cat r1 r2, rest2)

/-- One atom with an optional quantifier.  A brace that does not form a
valid bound is left to be parsed as a literal, as PCRE does. -/
def parseRep : Nat → List Char → Option (Regex × List Char)
  | 0, _ => none
  | n + 1, cs =>
    match parseAtom n cs with
    | none => none
    | some (r, rest) =>
      match rest with
      | '*' :: rest2 => some (.star r, rest2)
      | '+' :: rest2 => some (.cat r (.star r), rest2)
      | '?' :: rest2 => some (.alt r .eps, rest2)
      | '{' :: rest2 =>
        match parseBounds rest2 with
        | some (.exact m, rest3) => some (repeatCat r m, rest3)
        | some (.atLeast m, rest3) => some (.cat (repeatCat r m) (.star r), rest3)
        | some (.between m k, rest3) =>
          if m ≤ k then some (.cat (repeatCat r m) (repeatOpt r (k - m)), rest3)
          else none
        | none => some (r, rest)
      | _ => some (r, rest)

/-- An atom: group, bracket class, dot, escape, or a literal character.
A dangling quantifier or mid-pattern anchor is rejected. -/
def parseAtom : Nat → List Char → Option (Regex × List Char)
  | 0, _ => none
  | n + 1, cs =>
    match cs with
    | [] => none
    | '(' :: rest =>
      match parseAlt n rest with
      | some (r, ')' :: rest2) => some (r, rest2)
      | _ => none
    | '[' :: rest =>
      match parseClass n rest with
      | some (cc, rest2) => some (.cls cc, rest2)
      | none => none
    | '.' :: rest => some (.cls dotClass, rest)
    | '\\' :: c :: rest =>
      match escAtom c with
      | some cc => some (.cls cc, rest)
      | none => none
    | ['\\'] => none
    | c :: rest =>
      if c == '*' || c == '+' || c == '?' || c == '^' || c == '$' then none
      else some (.cls (litClass c), rest)

end

/-- Strip an unescaped trailing `$` anchor (an even number of backslashes
before it means it is unescaped). -/
def stripEndAnchor (p : List Char) : Bool × List Char :=
  match p.reverse with
  | '$' :: restRev =>
    if (restRev.takeWhile (fun c => c == '\\')).length % 2 == 0 then
      (true, restRev.reverse)
    else (false, p)
  | _ => (false, p)

/-- Parse a whole `$regex` pattern: end anchors, then the body; the fuel
comfortably bounds the recursion depth of the grammar. -/
def parseRegex (pat : List Char) : Option Anchored :=
  let startp := match pat with
    | '^' :: rest => (true, rest)
    | _ => (false, pat)
  let endp := stripEndAnchor startp.2
  match parseAlt (endp.2.length * 16 + 16) endp.2 with
  | some (r, []) => some { anchorStart := startp.1, anchorEnd := endp.1, r := r }
  | _ => none

/-- GET /api/search (public): `\x7b content: \x7b $regex: q, $options: i \x7d \x7d`,
newest first, limit 50, formatted; 400 when `q` is falsy (missing/empty);
a pattern the regex engine rejects raises, landing in the route's catch
(500, modelled as `serverError`). -/
def searchTweets (s : St) (viewer : Option Nat) (q : String) : Except Err (List FormattedTweet) :=
  if q = "" then .error .queryRequired
  else
    match parseRegex q.data with
    | none => .error .serverError
    | some a =>
      .ok (((sortByCreatedDesc (s.tweets.filter
          (fun t => regexAccepts a t.content.data))).take 50).map
        (formatTweet s viewer))

/-- The profile payload of GET /api/users/:username (cosmetic optional
fields omitted). -/
structure ProfileData where
  id : Nat
  name : String
  username : String
  email : String
  followersCount : Nat
  followingCount : Nat
  tweetsCount : Nat
  isFollowing : Option Bool
deriving DecidableEq, Repr

/-- GET /api/users/:username — `findOne` by username, count the tweets,
build the payload (including `email`), add `isFollowing` only when a
viewer is authenticated. -/
def getProfile (s : St) (uname : String) (viewer : Option Nat) : Option ProfileData :=
  (s.users.find? (fun u => u.username == uname)).map (fun u =>
    { id := u.id, name := u.name, username := u.username, email := u.email,
      followersCount := u.followers.length, followingCount := u.following.length,
      tweetsCount := (s.tweets.filter (fun t => t.user == u.id)).length,
      isFollowing := viewer.map (fun v => u.followers.contains v) })

/-- One core mutation, as the claims' operation alphabet. -/
inductive Step : St → St → Prop where
  | follow (a b : Nat) (s s' : St) : follow s a b = .ok s' → Step s s'
  | unfollow (a b : Nat) (s s' : St) : unfollow s a b = .ok s' → Step s s'
  | like (u t : Nat) (s s' : St) : like s u t = .ok s' → Step s s'
  | unlike (u t : Nat) (s s' : St) : unlike s u t = .ok s' → Step s s'
  | retweet (u t : Nat) (s s' : St) : retweet s u t = .ok s' → Step s s'
  | unretweet (u t : Nat) (s s' : St) : unretweet s u t = .ok s' → Step s s'
  | createPost (a : Nat) (c : String) (r : Option Nat) (i n : Nat) (s s' : St) :
      createPost s a c r i n = .ok s' → Step s s'
  | deletePost (r t : Nat) (s s' : St) : deletePost s r t = .ok s' → Step s s'

/-- States reachable from `s0` by core operations. -/
inductive Reachable (s0 : St) : St → Prop where
  | refl : Reachable s0 s0
  | step {s s' : St} : Reachable s0 s → Step s s' → Reachable s0 s'

/-! ### Concrete fixtures used by the witness theorems -/

/-- A user with no follow edges. -/
def wAlice : User :=
  { id := 1, name := "Alice", username := "alice", email := "alice@example.com",
    followers := [], following := [] }

/-- A second user with no follow edges. -/
def wBob : User :=
  { id := 2, name := "Bob", username := "bob", email := "bob@example.com",
    followers := [], following := [] }

/-- Two unrelated users, no tweets, no notifications. -/
def wS0 : St := { users := [wAlice, wBob], tweets := [], notifs := [] }

/-- The notification the follow of the fixture emits. -/
def wNotifFollow : Notification :=
  { recipient := 2, sender := 1, type := .follow, tweet := none,
    message := "started following you", read := false }

/-- The state after `follow wS0 1 2`, written out. -/
def wS1 : St :=
  { users := [{ wAlice with following := [2] }, { wBob with followers := [1] }],
    tweets := [],
    notifs := [wNotifFollow] }

/-- Carol follows Dave; fixture for the timeline claims. -/
def wCarol : User :=
  { id := 1, name := "Carol", username := "carol", email := "carol@example.com",
    followers := [], following := [2] }

/-- Dave, followed by Carol. -/
def wDave : User :=
  { id := 2, name := "Dave", username := "dave", email := "dave@example.com",
    followers := [1], following := [] }

/-- Timeline fixture: Carol follows Dave; a tweet of Carol's, a newer tweet
of Dave's (liked by Carol), a reply to Carol's tweet, and a tweet by an
unfollowed third author. -/
def wSFeed : St :=
  { users := [wCarol, wDave],
    tweets :=
      [{ id := 10, user := 1, content := "hi from carol", likes := [],
         retweets := [], replyTo := none, createdAt := 5 },
       { id := 11, user := 2, content := "hi from dave", likes := [1],
         retweets := [], replyTo := none, createdAt := 7 },
       { id := 12, user := 2, content := "a reply", likes := [],
         retweets := [], replyTo := some 10, createdAt := 9 },
       { id := 13, user := 3, content := "stranger", likes := [],
         retweets := [], replyTo := none, createdAt := 8 }],
    notifs := [] }

/-- Delete fixture: a root tweet by user 1, a direct reply by user 2,
a reply-to-the-reply by user 3, plus the reply/like notifications. -/
def wSDel : St :=
  { users := [],
    tweets :=
      [{ id := 1, user := 1, content := "root", likes := [], retweets := [],
         replyTo := none, createdAt := 1 },
       { id := 2, user := 2, content := "child", likes := [], retweets := [],
         replyTo := some 1, createdAt := 2 },
       { id := 3, user := 3, content := "grandchild", likes := [], retweets := [],
         replyTo := some 2, createdAt := 3 }],
    notifs :=
      [{ recipient := 1, sender := 2, type := .reply, tweet := some 2,
         message := "replied to your chirp", read := false },
       { recipient := 1, sender := 2, type := .like, tweet := some 1,
         message := "liked your chirp", read := false }] }

/-- A tweet authored by user 2, already liked by user 7. -/
def wTweetHello : Tweet :=
  { id := 1, user := 2, content := "hello", likes := [7],
    retweets := [], replyTo := none, createdAt := 0 }

/-- Like fixture: just that one tweet. -/
def wSLike : St := { users := [], tweets := [wTweetHello], notifs := [] }

/-- Dave's top-level tweet from the feed fixture, named for the witnesses. -/
def wTweet11 : Tweet :=
  { id := 11, user := 2, content := "hi from dave", likes := [1],
    retweets := [], replyTo := none, createdAt := 7 }

/-- 280 letters: raw length 280, trimmed length 280. -/
def wContent280 : String := String.mk (List.replicate 280 'a')

/-- 280 letters followed by a space: raw length 281, trimmed length 280. -/
def wContent281 : String := String.mk (List.replicate 280 'a' ++ [' '])

/-! ### Theorems -/

/-! #### Store helper lemmas -/

theorem update_preserves_id {α : Type} (idf : α → Nat) (k : Nat) (f : α → α)
    (hf : ∀ x, idf (f x) = idf x) (x : α) :
    idf (if idf x == k then f x else x) = idf x := by
  by_cases h : idf x = k <;> simp [h, hf]

theorem find_map_update_self {α : Type} (idf : α → Nat) (k : Nat) (f : α → α)
    (hf : ∀ x, idf (f x) = idf x) (l : List α) :
    ((l.map fun x => if idf x == k then f x else x).find? fun x => idf x == k)
      = ((l.find? fun x => idf x == k).map f) := by
  have hpg : ((fun x => idf x == k) ∘ fun x => if idf x == k then f x else x)
      = (fun x => idf x == k) := funext fun x => by
    show (idf (if idf x == k then f x else x) == k) = (idf x == k)
    rw [update_preserves_id idf k f hf x]
  rw [List.find?_map, hpg]
  cases hfind : l.find? (fun x => idf x == k) with
  | none => rfl
  | some y =>
    have hyk : idf y = k := by
      have h0 := List.find?_some hfind
      simpa using h0
    simp [hyk]

theorem find_map_update_ne {α : Type} (idf : α → Nat) (k j : Nat) (f : α → α)
    (hf : ∀ x, idf (f x) = idf x) (hkj : j ≠ k) (l : List α) :
    ((l.map fun x => if idf x == k then f x else x).find? fun x => idf x == j)
      = (l.find? fun x => idf x == j) := by
  have hpg : ((fun x => idf x == j) ∘ fun x => if idf x == k then f x else x)
      = (fun x => idf x == j) := funext fun x => by
    show (idf (if idf x == k then f x else x) == j) = (idf x == j)
    rw [update_preserves_id idf k f hf x]
  rw [List.find?_map, hpg]
  cases hfind : l.find? (fun x => idf x == j) with
  | none => rfl
  | some y =>
    have hyj : idf y = j := by
      have h0 := List.find?_some hfind
      simpa using h0
    have hyk : (idf y == k) = false := by simp [hyj, hkj]
    simp only [Option.map_some', Option.some.injEq]
    rw [hyk]
    rfl

theorem findUser_updateUser_self (s : St) (k : Nat) (f : User → User)
    (hf : ∀ u, (f u).id = u.id) :
    findUser (updateUser s k f) k = (findUser s k).map f :=
  find_map_update_self User.id k f hf s.users

theorem findUser_updateUser_ne (s : St) (k j : Nat) (f : User → User)
    (hf : ∀ u, (f u).id = u.id) (hkj : j ≠ k) :
    findUser (updateUser s k f) j = findUser s j :=
  find_map_update_ne User.id k j f hf hkj s.users

theorem findTweet_updateTweet_self (s : St) (k : Nat) (f : Tweet → Tweet)
    (hf : ∀ t, (f t).id = t.id) :
    findTweet (updateTweet s k f) k = (findTweet s k).map f :=
  find_map_update_self Tweet.id k f hf s.tweets

theorem contains_eq_true_of_mem {l : List Nat} {a : Nat} (h : a ∈ l) :
    l.contains a = true := by
  simpa [List.contains] using h

theorem contains_eq_false_of_not_mem {l : List Nat} {a : Nat} (h : a ∉ l) :
    l.contains a = false := by
  simpa [List.contains] using h

theorem filter_ne_append_self {l : List Nat} {a : Nat} (h : a ∉ l) :
    (l ++ [a]).filter (fun i => i != a) = l := by
  rw [List.filter_append]
  have h1 : [a].filter (fun i => i != a) = [] := by simp
  rw [h1, List.append_nil]
  exact List.filter_eq_self.mpr (fun x hx => by
    have : x ≠ a := fun he => h (he ▸ hx)
    simpa using this)

/-! #### C1: follow/unfollow round trip -/

/-- C1: for users A ≠ B, both existing, with A not already following B
(mirrored sets clean on both sides), `follow A B` succeeds and puts A in
B.followers and B in A.following; the subsequent `unfollow A B` succeeds
and restores both records to their pre-follow state, so neither mirrored
membership holds afterwards. -/
theorem c1_follow_unfollow_roundtrip
    (s : St) (a b : Nat) (ua ub : User)
    (hua : findUser s a = some ua) (hub : findUser s b = some ub)
    (hab : a ≠ b) (hfa : a ∉ ub.followers) (hfb : b ∉ ua.following) :
    ∃ s1, follow s a b = .ok s1 ∧
      (∃ ub1, findUser s1 b = some ub1 ∧ a ∈ ub1.followers) ∧
      (∃ ua1, findUser s1 a = some ua1 ∧ b ∈ ua1.following) ∧
      ∃ s2, unfollow s1 a b = .ok s2 ∧
        findUser s2 b = some ub ∧ findUser s2 a = some ua ∧
        a ∉ ub.followers ∧ b ∉ ua.following := by
  have hfB : ∀ u : User, ({ u with followers := u.followers ++ [a] } : User).id = u.id :=
    fun _ => rfl
  have hfA : ∀ u : User, ({ u with following := u.following ++ [b] } : User).id = u.id :=
    fun _ => rfl
  have hgB : ∀ u : User,
      ({ u with followers := u.followers.filter (fun i => i != a) } : User).id = u.id :=
    fun _ => rfl
  have hgA : ∀ u : User,
      ({ u with following := u.following.filter (fun i => i != b) } : User).id = u.id :=
    fun _ => rfl
  -- the state after a successful follow
  set s1 := updateUser s b (fun u => { u with followers := u.followers ++ [a] }) with hs1
  set s2 := updateUser s1 a (fun u => { u with following := u.following ++ [b] }) with hs2
  set s3 : St := { s2 with notifs := s2.notifs ++
    [{ recipient := b, sender := a, type := .follow, tweet := none,
       message := "started following you", read := false }] } with hs3
  have hfollow : follow s a b = .ok s3 := by
    unfold follow
    rw [hub]
    simp only [contains_eq_false_of_not_mem hfa, Bool.false_eq_true, if_false,
      if_neg hab]
  -- looking up the two records in s3
  have hfind3b : findUser s3 b = some { ub with followers := ub.followers ++ [a] } := by
    show findUser s2 b = _
    rw [hs2, findUser_updateUser_ne s1 a b _ hfA (Ne.symm hab), hs1,
      findUser_updateUser_self s b _ hfB, hub]
    rfl
  have hfind3a : findUser s3 a = some { ua with following := ua.following ++ [b] } := by
    show findUser s2 a = _
    rw [hs2, findUser_updateUser_self s1 a _ hfA, hs1,
      findUser_updateUser_ne s b a _ hfB hab, hua]
    rfl
  -- the state after the unfollow
  set s4 := updateUser s3 b
    (fun u => { u with followers := u.followers.filter (fun i => i != a) }) with hs4
  set s5 := updateUser s4 a
    (fun u => { u with following := u.following.filter (fun i => i != b) }) with hs5
  have hunfollow : unfollow s3 a b = .ok s5 := by
    unfold unfollow
    rw [hfind3b]
    have : (ub.followers ++ [a]).contains a = true :=
      contains_eq_true_of_mem (by simp)
    simp only [this, if_true]
  have hfind5b : findUser s5 b = some ub := by
    rw [hs5, findUser_updateUser_ne s4 a b _ hgA (Ne.symm hab), hs4,
      findUser_updateUser_self s3 b _ hgB, hfind3b]
    simp only [Option.map_some']
    congr 1
    have : (ub.followers ++ [a]).filter (fun i => i != a) = ub.followers :=
      filter_ne_append_self hfa
    calc ({ ub with followers := (ub.followers ++ [a]).filter (fun i => i != a) } : User)
        = { ub with followers := ub.followers } := by rw [this]
      _ = ub := rfl
  have hfind5a : findUser s5 a = some ua := by
    rw [hs5, findUser_updateUser_self s4 a _ hgA, hs4,
      findUser_updateUser_ne s3 b a _ hgB hab, hfind3a]
    simp only [Option.map_some']
    congr 1
    have : (ua.following ++ [b]).filter (fun i => i != b) = ua.following :=
      filter_ne_append_self hfb
    calc ({ ua with following := (ua.following ++ [b]).filter (fun i => i != b) } : User)
        = { ua with following := ua.following } := by rw [this]
      _ = ua := rfl
  exact ⟨s3, hfollow,
    ⟨_, hfind3b, by simp⟩,
    ⟨_, hfind3a, by simp⟩,
    s5, hunfollow, hfind5b, hfind5a, hfa, hfb⟩

/-! #### C6: like/unlike round trip -/

/-- C6: for a post P that exists and a user U not in P.likes, `like(U,P)`
succeeds and appends U to the like set, and the following `unlike(U,P)`
succeeds and returns P's record (like set included) to exactly its
pre-like state. -/
theorem c6_like_unlike_roundtrip
    (s : St) (u pid : Nat) (t : Tweet)
    (ht : findTweet s pid = some t) (hu : u ∉ t.likes) :
    ∃ s1, like s u pid = .ok s1 ∧
      (∃ t1, findTweet s1 pid = some t1 ∧ t1.likes = t.likes ++ [u]) ∧
      ∃ s2, unlike s1 u pid = .ok s2 ∧ findTweet s2 pid = some t := by
  have hfL : ∀ tw : Tweet, ({ tw with likes := tw.likes ++ [u] } : Tweet).id = tw.id :=
    fun _ => rfl
  have hgL : ∀ tw : Tweet,
      ({ tw with likes := tw.likes.filter (fun i => i != u) } : Tweet).id = tw.id :=
    fun _ => rfl
  set sA := updateTweet s pid (fun tw => { tw with likes := tw.likes ++ [u] }) with hsA
  have hfindA : findTweet sA pid = some { t with likes := t.likes ++ [u] } := by
    rw [hsA, findTweet_updateTweet_self s pid _ hfL, ht]
    rfl
  have hmain : ∀ s1 : St, s1.tweets = sA.tweets →
      (∃ t1, findTweet s1 pid = some t1 ∧ t1.likes = t.likes ++ [u]) ∧
      ∃ s2, unlike s1 u pid = .ok s2 ∧ findTweet s2 pid = some t := by
    intro s1 hteq
    have hfind1 : findTweet s1 pid = some { t with likes := t.likes ++ [u] } := by
      show s1.tweets.find? _ = _
      rw [hteq]
      exact hfindA
    refine ⟨⟨_, hfind1, rfl⟩, ?_⟩
    have hcontains : ((t.likes ++ [u]).contains u) = true :=
      contains_eq_true_of_mem (by simp)
    refine ⟨updateTweet s1 pid
      (fun tw => { tw with likes := tw.likes.filter (fun i => i != u) }), ?_, ?_⟩
    · unfold unlike
      rw [hfind1]
      simp only [hcontains, if_true]
    · rw [findTweet_updateTweet_self s1 pid _ hgL, hfind1]
      simp only [Option.map_some']
      congr 1
      have hrestore : (t.likes ++ [u]).filter (fun i => i != u) = t.likes :=
        filter_ne_append_self hu
      calc ({ t with likes := (t.likes ++ [u]).filter (fun i => i != u) } : Tweet)
          = { t with likes := t.likes } := by rw [hrestore]
        _ = t := rfl
  by_cases hself : t.user = u
  · refine ⟨sA, ?_, hmain sA rfl⟩
    unfold like
    rw [ht]
    simp only [contains_eq_false_of_not_mem hu, Bool.false_eq_true, if_false,
      if_pos hself]
  · refine ⟨{ sA with notifs := sA.notifs ++
      [{ recipient := t.user, sender := u, type := .like,
         tweet := some pid, message := "liked your chirp", read := false }] }, ?_,
      hmain _ rfl⟩
    unfold like
    rw [ht]
    simp only [contains_eq_false_of_not_mem hu, Bool.false_eq_true, if_false,
      if_neg hself]

/-- Witness for C6: user 3 likes then unlikes the fixture tweet. -/
theorem c6_witness :
    ∃ s1, like wSLike 3 1 = .ok s1 ∧
      (∃ t1, findTweet s1 1 = some t1 ∧ t1.likes = wTweetHello.likes ++ [3]) ∧
      ∃ s2, unlike s1 3 1 = .ok s2 ∧ findTweet s2 1 = some wTweetHello :=
  c6_like_unlike_roundtrip wSLike 3 1 wTweetHello (by decide) (by decide)

/-! #### C3: deletePost error cases and cascade -/

/-- C3: `deletePost` answers NotFound when the post is missing and
Unauthorized when the requester is not the author; on success it removes
the post, its direct replies and the notifications whose related post is
the deleted one, keeps everything else (in particular replies to the
direct replies stay in place), and touches no user record. -/
theorem c3_delete_post (s : St) (r pid : Nat) :
    (findTweet s pid = none → deletePost s r pid = .error .tweetNotFound) ∧
    (∀ t, findTweet s pid = some t → t.user ≠ r →
      deletePost s r pid = .error .notAuthorized) ∧
    (∀ t, findTweet s pid = some t → t.user = r →
      ∃ s', deletePost s r pid = .ok s' ∧
        (∀ p ∈ s'.tweets, p.id ≠ pid ∧ p.replyTo ≠ some pid) ∧
        (∀ p ∈ s.tweets, p.id ≠ pid → p.replyTo ≠ some pid → p ∈ s'.tweets) ∧
        (∀ p ∈ s'.tweets, p ∈ s.tweets) ∧
        (∀ n ∈ s'.notifs, n.tweet ≠ some pid) ∧
        (∀ n ∈ s.notifs, n.tweet ≠ some pid → n ∈ s'.notifs) ∧
        (∀ p rr, p ∈ s.tweets → rr ∈ s.tweets → rr.replyTo = some pid →
          p.replyTo = some rr.id → rr.id ≠ pid → p.id ≠ pid → p ∈ s'.tweets) ∧
        s'.users = s.users) := by
  refine ⟨?_, ?_, ?_⟩
  · intro hnone
    unfold deletePost
    rw [hnone]
  · intro t ht hne
    unfold deletePost
    rw [ht]
    simp only [if_neg hne]
  · intro t ht hr
    refine ⟨{ s with
      tweets := (s.tweets.filter (fun p => p.id != pid)).filter
        (fun p => p.replyTo != some pid),
      notifs := s.notifs.filter (fun n => n.tweet != some pid) }, ?_, ?_, ?_, ?_, ?_, ?_, ?_, rfl⟩
    · unfold deletePost
      rw [ht]
      simp only [if_pos hr]
    · intro p hp
      simp only [List.mem_filter, bne_iff_ne, ne_eq] at hp
      exact ⟨hp.1.2, hp.2⟩
    · intro p hp h1 h2
      simp only [List.mem_filter, bne_iff_ne, ne_eq]
      exact ⟨⟨hp, h1⟩, h2⟩
    · intro p hp
      simp only [List.mem_filter] at hp
      exact hp.1.1
    · intro n hn
      simp only [List.mem_filter, bne_iff_ne, ne_eq] at hn
      exact hn.2
    · intro n hn h1
      simp only [List.mem_filter, bne_iff_ne, ne_eq]
      exact ⟨hn, h1⟩
    · intro p rr hp hrr hrrpid hprr hrrid hpid
      simp only [List.mem_filter, bne_iff_ne, ne_eq]
      refine ⟨⟨hp, hpid⟩, ?_⟩
      rw [hprr]
      intro he
      exact hrrid (Option.some.injEq _ _ ▸ he)

/-- Witness for C3: deleting the root of the fixture thread. -/
theorem c3_witness :
    ∃ s', deletePost wSDel 1 1 = .ok s' ∧
      (∀ p ∈ s'.tweets, p.id ≠ 1 ∧ p.replyTo ≠ some 1) ∧
      (∀ p ∈ wSDel.tweets, p.id ≠ 1 → p.replyTo ≠ some 1 → p ∈ s'.tweets) ∧
      (∀ p ∈ s'.tweets, p ∈ wSDel.tweets) ∧
      (∀ n ∈ s'.notifs, n.tweet ≠ some 1) ∧
      (∀ n ∈ wSDel.notifs, n.tweet ≠ some 1 → n ∈ s'.notifs) ∧
      (∀ p rr, p ∈ wSDel.tweets → rr ∈ wSDel.tweets → rr.replyTo = some 1 →
        p.replyTo = some rr.id → rr.id ≠ 1 → p.id ≠ 1 → p ∈ s'.tweets) ∧
      s'.users = wSDel.users :=
  (c3_delete_post wSDel 1 1).2.2
    { id := 1, user := 1, content := "root", likes := [], retweets := [],
      replyTo := none, createdAt := 1 } (by decide) rfl

/-! #### C10: deletion leaves the direct replies' notifications behind -/

/-- C10: after a successful delete of P, exactly the notifications whose
related post is P are removed; a notification pointing at a direct reply R
of P survives unchanged even though R itself is deleted. -/
theorem c10_delete_keeps_reply_notifs (s : St) (r pid : Nat) (t : Tweet)
    (ht : findTweet s pid = some t) (hown : t.user = r) :
    ∃ s', deletePost s r pid = .ok s' ∧
      s'.notifs = s.notifs.filter (fun n => n.tweet != some pid) ∧
      (∀ n ∈ s.notifs, ∀ rr ∈ s.tweets, rr.replyTo = some pid → rr.id ≠ pid →
        n.tweet = some rr.id → n ∈ s'.notifs ∧ rr ∉ s'.tweets) ∧
      (∀ n ∈ s.notifs, n.tweet = some pid → n ∉ s'.notifs) := by
  refine ⟨{ s with
    tweets := (s.tweets.filter (fun p => p.id != pid)).filter
      (fun p => p.replyTo != some pid),
    notifs := s.notifs.filter (fun n => n.tweet != some pid) }, ?_, rfl, ?_, ?_⟩
  · unfold deletePost
    rw [ht]
    simp only [if_pos hown]
  · intro n hn rr hrr hrrpid hrrid hnrr
    constructor
    · simp only [List.mem_filter, bne_iff_ne, ne_eq]
      refine ⟨hn, ?_⟩
      rw [hnrr]
      intro he
      exact hrrid (Option.some.injEq _ _ ▸ he)
    · intro hmem
      simp only [List.mem_filter, bne_iff_ne, ne_eq] at hmem
      exact hmem.2 hrrpid
  · intro n hn h1 hmem
    simp only [List.mem_filter, bne_iff_ne, ne_eq] at hmem
    exact hmem.2 h1

/-- Witness for C10: the `reply` notification (related post = the direct
reply, id 2) survives the delete of the root while the reply itself and
the root's `like` notification are removed. -/
theorem c10_witness :
    ∃ s', deletePost wSDel 1 1 = .ok s' ∧
      s'.notifs = wSDel.notifs.filter (fun n => n.tweet != some 1) ∧
      (∀ n ∈ wSDel.notifs, ∀ rr ∈ wSDel.tweets, rr.replyTo = some 1 → rr.id ≠ 1 →
        n.tweet = some rr.id → n ∈ s'.notifs ∧ rr ∉ s'.tweets) ∧
      (∀ n ∈ wSDel.notifs, n.tweet = some 1 → n ∉ s'.notifs) :=
  c10_delete_keeps_reply_notifs wSDel 1 1
    { id := 1, user := 1, content := "root", likes := [], retweets := [],
      replyTo := none, createdAt := 1 } (by decide) rfl

/-! #### C9: the public profile payload leaks the email -/

/-- C9: looking up an existing user's profile by username returns a payload
that carries the user's email address (with or without a viewer),
alongside the public name/username fields. -/
theorem c9_profile_includes_email (s : St) (uname : String) (viewer : Option Nat)
    (u : User) (hu : s.users.find? (fun x => x.username == uname) = some u) :
    ∃ pd, getProfile s uname viewer = some pd ∧ pd.email = u.email ∧
      pd.name = u.name ∧ pd.username = u.username := by
  unfold getProfile
  rw [hu]
  exact ⟨_, rfl, rfl, rfl, rfl⟩

/-- Witness for C9 on the two-user fixture, unauthenticated viewer. -/
theorem c9_witness :
    ∃ pd, getProfile wS0 "alice" none = some pd ∧ pd.email = wAlice.email ∧
      pd.name = wAlice.name ∧ pd.username = wAlice.username :=
  c9_profile_includes_email wS0 "alice" none wAlice (by decide)

/-! #### C4: content validation bounds -/

set_option maxRecDepth 8192 in
/-- C4 counterexample: a content of 281 raw characters whose trimmed length
is 280 (inside the claimed 1–280 success range) is rejected with the
too-long error, because the source checks `content.length > 280` on the
raw, untrimmed string. -/
theorem c4_counterexample :
    (jsTrim wContent281).length = 280 ∧ 1 ≤ (jsTrim wContent281).length ∧
    createPost wS0 1 wContent281 none 1 0 = .error .contentTooLong := by
  refine ⟨by decide, by decide, ?_⟩
  decide

/-- C4 amended: the empty error is raised exactly when the trimmed content
is empty; the too-long error exactly when the trimmed content is nonempty
and the RAW content exceeds 280 characters; content nonempty after trim
and of raw length at most 280 succeeds. -/
theorem c4_content_validation (s : St) (authorId : Nat) (content : String)
    (newId now : Nat) :
    (createPost s authorId content none newId now = .error .contentRequired ↔
      jsTrim content = "") ∧
    (createPost s authorId content none newId now = .error .contentTooLong ↔
      (jsTrim content ≠ "" ∧ 280 < content.length)) ∧
    (jsTrim content ≠ "" → content.length ≤ 280 →
      ∃ s', createPost s authorId content none newId now = .ok s') := by
  unfold createPost
  by_cases h1 : jsTrim content = ""
  · simp [h1]
  · by_cases h2 : 280 < content.length
    · simp [h1, h2]
    · simp [h1, h2]

set_option maxRecDepth 8192 in
/-- Witness for C4 (amended): the 280-letter content succeeds. -/
theorem c4_witness :
    jsTrim wContent280 ≠ "" ∧ wContent280.length ≤ 280 ∧
    ∃ s', createPost wS0 1 wContent280 none 1 0 = .ok s' :=
  ⟨by decide, by decide,
    (c4_content_validation wS0 1 wContent280 1 0).2.2 (by decide) (by decide)⟩

/-! #### C8: no operation creates a self-notification -/

theorem notifs_after_follow {s s' : St} {a b : Nat} (h : follow s a b = .ok s') :
    ∀ n ∈ s'.notifs, n ∈ s.notifs ∨ n.sender ≠ n.recipient := by
  unfold follow at h
  split at h
  · exact absurd h (by simp)
  · split at h
    · exact absurd h (by simp)
    · split at h
      · exact absurd h (by simp)
      · rename_i hne
        injection h with h'
        subst h'
        intro n hn
        simp only [updateUser, List.mem_append, List.mem_singleton] at hn
        rcases hn with hn | hn
        · exact Or.inl hn
        · subst hn
          exact Or.inr hne

theorem notifs_after_unfollow {s s' : St} {a b : Nat} (h : unfollow s a b = .ok s') :
    ∀ n ∈ s'.notifs, n ∈ s.notifs := by
  unfold unfollow at h
  split at h
  · exact absurd h (by simp)
  · split at h
    · injection h with h'
      subst h'
      intro n hn
      simpa only [updateUser] using hn
    · exact absurd h (by simp)

theorem notifs_after_like {s s' : St} {u t : Nat} (h : like s u t = .ok s') :
    ∀ n ∈ s'.notifs, n ∈ s.notifs ∨ n.sender ≠ n.recipient := by
  unfold like at h
  split at h
  · exact absurd h (by simp)
  · split at h
    · exact absurd h (by simp)
    · rename_i tw hfound hcont
      split at h
      · injection h with h'
        subst h'
        intro n hn
        exact Or.inl (by simpa only [updateTweet] using hn)
      · rename_i hne
        injection h with h'
        subst h'
        intro n hn
        simp only [updateTweet, List.mem_append, List.mem_singleton] at hn
        rcases hn with hn | hn
        · exact Or.inl hn
        · subst hn
          exact Or.inr (fun he => hne he.symm)

theorem notifs_after_unlike {s s' : St} {u t : Nat} (h : unlike s u t = .ok s') :
    ∀ n ∈ s'.notifs, n ∈ s.notifs := by
  unfold unlike at h
  split at h
  · exact absurd h (by simp)
  · split at h
    · injection h with h'
      subst h'
      intro n hn
      simpa only [updateTweet] using hn
    · exact absurd h (by simp)

theorem notifs_after_retweet {s s' : St} {u t : Nat} (h : retweet s u t = .ok s') :
    ∀ n ∈ s'.notifs, n ∈ s.notifs ∨ n.sender ≠ n.recipient := by
  unfold retweet at h
  split at h
  · exact absurd h (by simp)
  · split at h
    · exact absurd h (by simp)
    · rename_i tw hfound hcont
      split at h
      · injection h with h'
        subst h'
        intro n hn
        exact Or.inl (by simpa only [updateTweet] using hn)
      · rename_i hne
        injection h with h'
        subst h'
        intro n hn
        simp only [updateTweet, List.mem_append, List.mem_singleton] at hn
        rcases hn with hn | hn
        · exact Or.inl hn
        · subst hn
          exact Or.inr (fun he => hne he.symm)

theorem notifs_after_unretweet {s s' : St} {u t : Nat} (h : unretweet s u t = .ok s') :
    ∀ n ∈ s'.notifs, n ∈ s.notifs := by
  unfold unretweet at h
  split at h
  · exact absurd h (by simp)
  · split at h
    · injection h with h'
      subst h'
      intro n hn
      simpa only [updateTweet] using hn
    · exact absurd h (by simp)

theorem notifs_after_createPost {s s' : St} {a : Nat} {c : String} {r : Option Nat}
    {i m : Nat} (h : createPost s a c r i m = .ok s') :
    ∀ n ∈ s'.notifs, n ∈ s.notifs ∨ n.sender ≠ n.recipient := by
  unfold createPost at h
  split at h
  · exact absurd h (by simp)
  · split at h
    · exact absurd h (by simp)
    · split at h
      · injection h with h'
        subst h'
        exact fun n hn => Or.inl hn
      · split at h
        · exact absurd h (by simp)
        · rename_i orig hfound
          injection h with h'
          subst h'
          intro n hn
          simp only at hn
          split at hn
          · exact Or.inl hn
          · rename_i hne
            simp only [List.mem_append, List.mem_singleton] at hn
            rcases hn with hn | hn
            · exact Or.inl hn
            · subst hn
              exact Or.inr (fun he => hne he.symm)

theorem notifs_after_deletePost {s s' : St} {r t : Nat} (h : deletePost s r t = .ok s') :
    ∀ n ∈ s'.notifs, n ∈ s.notifs := by
  unfold deletePost at h
  split at h
  · exact absurd h (by simp)
  · split at h
    · injection h with h'
      subst h'
      intro n hn
      exact (List.mem_filter.mp hn).1
    · exact absurd h (by simp)

/-- C8: every state reachable by the core operations from a store whose
notifications all have sender ≠ recipient keeps that invariant — no
operation (follow, like, retweet, reply in particular) ever creates a
notification whose sender equals its recipient. -/
theorem c8_no_self_notification (s0 s : St)
    (h0 : ∀ n ∈ s0.notifs, n.sender ≠ n.recipient)
    (hr : Reachable s0 s) :
    ∀ n ∈ s.notifs, n.sender ≠ n.recipient := by
  induction hr with
  | refl => exact h0
  | step _ hstep ih =>
    intro n hn
    cases hstep with
    | follow a b s1 s2 hok =>
      rcases notifs_after_follow hok n hn with hmem | hne
      · exact ih n hmem
      · exact hne
    | unfollow a b s1 s2 hok => exact ih n (notifs_after_unfollow hok n hn)
    | like u t s1 s2 hok =>
      rcases notifs_after_like hok n hn with hmem | hne
      · exact ih n hmem
      · exact hne
    | unlike u t s1 s2 hok => exact ih n (notifs_after_unlike hok n hn)
    | retweet u t s1 s2 hok =>
      rcases notifs_after_retweet hok n hn with hmem | hne
      · exact ih n hmem
      · exact hne
    | unretweet u t s1 s2 hok => exact ih n (notifs_after_unretweet hok n hn)
    | createPost a c r i m s1 s2 hok =>
      rcases notifs_after_createPost hok n hn with hmem | hne
      · exact ih n hmem
      · exact hne
    | deletePost r t s1 s2 hok => exact ih n (notifs_after_deletePost hok n hn)

/-- Witness for C8: the notification produced by one follow step from the
clean two-user store has distinct sender and recipient. -/
theorem c8_witness : wNotifFollow.sender ≠ wNotifFollow.recipient :=
  c8_no_self_notification wS0 wS1 (by decide)
    (Reachable.step Reachable.refl (Step.follow 1 2 wS0 wS1 (by decide)))
    wNotifFollow (by decide)

/-! #### Feed pipeline: filter + sort-descending + take 50 + format -/

theorem feed_pipeline_spec (s : St) (viewer : Option Nat) (p : Tweet → Bool) :
    (∀ ft ∈ ((sortByCreatedDesc (s.tweets.filter p)).take 50).map (formatTweet s viewer),
       ∃ t, t ∈ s.tweets ∧ p t = true ∧ ft = formatTweet s viewer t) ∧
    List.Pairwise (fun x y : FormattedTweet => y.createdAt ≤ x.createdAt)
      (((sortByCreatedDesc (s.tweets.filter p)).take 50).map (formatTweet s viewer)) ∧
    (((sortByCreatedDesc (s.tweets.filter p)).take 50).map (formatTweet s viewer)).length ≤ 50 ∧
    ((s.tweets.filter p).length ≤ 50 →
      ∀ t, t ∈ s.tweets → p t = true →
        formatTweet s viewer t ∈
          ((sortByCreatedDesc (s.tweets.filter p)).take 50).map (formatTweet s viewer)) := by
  set l := s.tweets.filter p with hl
  refine ⟨?_, ?_, ?_, ?_⟩
  · intro ft hft
    rcases List.mem_map.mp hft with ⟨t, ht, hfmt⟩
    have ht2 : t ∈ sortByCreatedDesc l := (List.take_sublist 50 _).subset ht
    have ht3 : t ∈ l := by
      unfold sortByCreatedDesc at ht2
      simpa using ht2
    rw [hl] at ht3
    rcases List.mem_filter.mp ht3 with ⟨hmem, hp⟩
    exact ⟨t, hmem, hp, hfmt.symm⟩
  · have hsorted : List.Pairwise laterFirst (sortByCreatedDesc l) :=
      List.sorted_insertionSort laterFirst l
    have htake : List.Pairwise laterFirst ((sortByCreatedDesc l).take 50) :=
      List.Pairwise.sublist (List.take_sublist 50 _) hsorted
    exact List.pairwise_map.mpr (htake.imp (fun hab => hab))
  · simp only [List.length_map, List.length_take]
    exact min_le_left _ _
  · intro hlen t hmem hp
    have hsortlen : (sortByCreatedDesc l).length = l.length :=
      (List.perm_insertionSort laterFirst l).length_eq
    have htake : (sortByCreatedDesc l).take 50 = sortByCreatedDesc l :=
      List.take_of_length_le (by rw [hsortlen]; exact hlen)
    rw [htake]
    refine List.mem_map.mpr ⟨t, ?_, rfl⟩
    show t ∈ sortByCreatedDesc l
    unfold sortByCreatedDesc
    simp only [List.mem_insertionSort]
    rw [hl]
    exact List.mem_filter.mpr ⟨hmem, hp⟩

/-! #### C2: timeline contents, order, cap and decoration -/

/-- C2: for an existing user U, the timeline returns formatted posts drawn
exactly from the top-level posts authored by U or a followee — each
decorated with the viewer-relative `isLiked`/`isRetweeted` flags, the
stored counters, and a reply count freshly computed as the number of
posts replying to it — ordered by creation time descending and capped at
50 (every qualifying post appears whenever at most 50 qualify). -/
theorem c2_timeline (s : St) (uid : Nat) (u : User) (hu : findUser s uid = some u) :
    ∃ ts, timeline s uid = some ts ∧
      (∀ ft ∈ ts, ∃ t, t ∈ s.tweets ∧
        (t.user = uid ∨ t.user ∈ u.following) ∧ t.replyTo = none ∧
        ft.content = t.content ∧ ft.user = t.user ∧ ft.createdAt = t.createdAt ∧
        ft.likeCount = t.likes.length ∧ ft.retweetCount = t.retweets.length ∧
        (ft.isLiked = true ↔ uid ∈ t.likes) ∧
        (ft.isRetweeted = true ↔ uid ∈ t.retweets) ∧
        ft.replyCount = (s.tweets.filter (fun q => q.replyTo == some t.id)).length) ∧
      List.Pairwise (fun x y : FormattedTweet => y.createdAt ≤ x.createdAt) ts ∧
      ts.length ≤ 50 ∧
      ((s.tweets.filter
          (fun t => (u.following ++ [uid]).contains t.user && t.replyTo == none)).length ≤ 50 →
        ∀ t, t ∈ s.tweets → (t.user = uid ∨ t.user ∈ u.following) → t.replyTo = none →
          formatTweet s (some uid) t ∈ ts) := by
  have hpipe := feed_pipeline_spec s (some uid)
    (fun t => (u.following ++ [uid]).contains t.user && t.replyTo == none)
  have htl : timeline s uid = some (((sortByCreatedDesc (s.tweets.filter
      (fun t => (u.following ++ [uid]).contains t.user && t.replyTo == none))).take 50).map
      (formatTweet s (some uid))) := by
    unfold timeline
    rw [hu]
    rfl
  refine ⟨_, htl, ?_, hpipe.2.1, hpipe.2.2.1, ?_⟩
  · intro ft hft
    rcases hpipe.1 ft hft with ⟨t, hmem, hp, hfmt⟩
    have hp' : (t.user ∈ u.following ∨ t.user = uid) ∧ t.replyTo = none := by
      simpa only [Bool.and_eq_true, List.contains, List.elem_eq_mem,
        decide_eq_true_eq, List.mem_append, List.mem_singleton, beq_iff_eq] using hp
    refine ⟨t, hmem, hp'.1.symm, hp'.2, ?_⟩
    rw [hfmt]
    refine ⟨rfl, rfl, rfl, rfl, rfl, ?_, ?_, rfl⟩
    · show t.likes.contains uid = true ↔ uid ∈ t.likes
      simp [List.contains]
    · show t.retweets.contains uid = true ↔ uid ∈ t.retweets
      simp [List.contains]
  · intro hlen t hmem hq hreply
    refine hpipe.2.2.2 hlen t hmem ?_
    simp only [Bool.and_eq_true, List.contains, List.elem_eq_mem,
      decide_eq_true_eq, List.mem_append, List.mem_singleton, beq_iff_eq]
    exact ⟨hq.symm, hreply⟩

/-- Witness for C2 on the feed fixture: Carol's timeline. -/
theorem c2_witness :
    ∃ ts, timeline wSFeed 1 = some ts ∧
      (∀ ft ∈ ts, ∃ t, t ∈ wSFeed.tweets ∧
        (t.user = 1 ∨ t.user ∈ wCarol.following) ∧ t.replyTo = none ∧
        ft.content = t.content ∧ ft.user = t.user ∧ ft.createdAt = t.createdAt ∧
        ft.likeCount = t.likes.length ∧ ft.retweetCount = t.retweets.length ∧
        (ft.isLiked = true ↔ (1 : Nat) ∈ t.likes) ∧
        (ft.isRetweeted = true ↔ (1 : Nat) ∈ t.retweets) ∧
        ft.replyCount = (wSFeed.tweets.filter (fun q => q.replyTo == some t.id)).length) ∧
      List.Pairwise (fun x y : FormattedTweet => y.createdAt ≤ x.createdAt) ts ∧
      ts.length ≤ 50 ∧
      ((wSFeed.tweets.filter
          (fun t => (wCarol.following ++ [1]).contains t.user && t.replyTo == none)).length ≤ 50 →
        ∀ t, t ∈ wSFeed.tweets → (t.user = 1 ∨ t.user ∈ wCarol.following) → t.replyTo = none →
          formatTweet wSFeed (some 1) t ∈ ts) :=
  c2_timeline wSFeed 1 wCarol (by decide)

/-! #### C5: viewer-relative decoration on every listing endpoint -/

theorem formatTweet_decoration (s : St) (viewer : Option Nat) (t : Tweet) :
    (∀ v, viewer = some v →
      (((formatTweet s viewer t).isLiked = true) ↔ v ∈ t.likes) ∧
      (((formatTweet s viewer t).isRetweeted = true) ↔ v ∈ t.retweets)) ∧
    (viewer = none → (formatTweet s viewer t).isLiked = false ∧
      (formatTweet s viewer t).isRetweeted = false) := by
  constructor
  · intro v hv
    subst hv
    constructor
    · show t.likes.contains v = true ↔ v ∈ t.likes
      simp [List.contains]
    · show t.retweets.contains v = true ↔ v ∈ t.retweets
      simp [List.contains]
  · intro hv
    subst hv
    exact ⟨rfl, rfl⟩

/-- C5: on timeline, explore, search and replies, every returned entry is
the formatted image of a stored post, and carries `isLiked`/`isRetweeted`
equal to the authenticated viewer's membership in that post's
like/retweet sets — both false when no viewer is authenticated. -/
theorem c5_decoration (s : St) (viewer : Option Nat) (uid tid : Nat) (q : String) :
    (∀ ts, timeline s uid = some ts → ∀ ft ∈ ts, ∃ t, t ∈ s.tweets ∧
      ft = formatTweet s (some uid) t ∧
      ((ft.isLiked = true) ↔ uid ∈ t.likes) ∧
      ((ft.isRetweeted = true) ↔ uid ∈ t.retweets)) ∧
    (∀ ft ∈ explore s viewer, ∃ t, t ∈ s.tweets ∧
      ft = formatTweet s viewer t ∧
      (∀ v, viewer = some v →
        ((ft.isLiked = true) ↔ v ∈ t.likes) ∧ ((ft.isRetweeted = true) ↔ v ∈ t.retweets)) ∧
      (viewer = none → ft.isLiked = false ∧ ft.isRetweeted = false)) ∧
    (∀ l, searchTweets s viewer q = .ok l → ∀ ft ∈ l, ∃ t, t ∈ s.tweets ∧
      ft = formatTweet s viewer t ∧
      (∀ v, viewer = some v →
        ((ft.isLiked = true) ↔ v ∈ t.likes) ∧ ((ft.isRetweeted = true) ↔ v ∈ t.retweets)) ∧
      (viewer = none → ft.isLiked = false ∧ ft.isRetweeted = false)) ∧
    (∀ ft ∈ repliesOf s viewer tid, ∃ t, t ∈ s.tweets ∧
      ft = formatTweet s viewer t ∧
      (∀ v, viewer = some v →
        ((ft.isLiked = true) ↔ v ∈ t.likes) ∧ ((ft.isRetweeted = true) ↔ v ∈ t.retweets)) ∧
      (viewer = none → ft.isLiked = false ∧ ft.isRetweeted = false)) := by
  refine ⟨?_, ?_, ?_, ?_⟩
  · intro ts hts ft hft
    cases hu : findUser s uid with
    | none =>
      rw [timeline, hu] at hts
      exact Option.noConfusion hts
    | some u =>
      rw [timeline, hu] at hts
      have hts' : ts = ((sortByCreatedDesc (s.tweets.filter
          (fun t => (u.following ++ [uid]).contains t.user && t.replyTo == none))).take 50).map
          (formatTweet s (some uid)) := (Option.some.inj hts).symm
      subst hts'
      rcases (feed_pipeline_spec s (some uid)
          (fun t => (u.following ++ [uid]).contains t.user && t.replyTo == none)).1
          ft hft with ⟨t, hmem, _, hfmt⟩
      subst hfmt
      exact ⟨t, hmem, rfl, ((formatTweet_decoration s (some uid) t).1 uid rfl).1,
        ((formatTweet_decoration s (some uid) t).1 uid rfl).2⟩
  · intro ft hft
    rcases (feed_pipeline_spec s viewer (fun t => t.replyTo == none)).1 ft hft with
      ⟨t, hmem, _, hfmt⟩
    subst hfmt
    exact ⟨t, hmem, rfl, (formatTweet_decoration s viewer t).1,
      (formatTweet_decoration s viewer t).2⟩
  · intro l hl ft hft
    by_cases hq : q = ""
    · rw [searchTweets, if_pos hq] at hl
      exact Except.noConfusion hl
    · rw [searchTweets, if_neg hq] at hl
      cases hparse : parseRegex q.data with
      | none =>
        rw [hparse] at hl
        exact Except.noConfusion hl
      | some a =>
        rw [hparse] at hl
        have hl' : l = ((sortByCreatedDesc (s.tweets.filter
            (fun t => regexAccepts a t.content.data))).take 50).map
            (formatTweet s viewer) := (Except.ok.inj hl).symm
        subst hl'
        rcases (feed_pipeline_spec s viewer
            (fun t => regexAccepts a t.content.data)).1 ft hft with ⟨t, hmem, _, hfmt⟩
        subst hfmt
        exact ⟨t, hmem, rfl, (formatTweet_decoration s viewer t).1,
          (formatTweet_decoration s viewer t).2⟩
  · intro ft hft
    rcases List.mem_map.mp hft with ⟨t, ht, hfmt⟩
    have ht2 : t ∈ s.tweets.filter (fun t => t.replyTo == some tid) := by
      have := ht
      unfold sortByCreatedDesc at this
      simpa using this
    have hmem : t ∈ s.tweets := (List.mem_filter.mp ht2).1
    subst hfmt
    exact ⟨t, hmem, rfl, (formatTweet_decoration s viewer t).1,
      (formatTweet_decoration s viewer t).2⟩

/-- Witness for C5: the flags of Dave's tweet on the explore feed as seen
by viewer 1, who liked it. -/
theorem c5_witness :
    ∃ t, t ∈ wSFeed.tweets ∧
      formatTweet wSFeed (some 1) wTweet11 = formatTweet wSFeed (some 1) t ∧
      (∀ v, (some 1 : Option Nat) = some v →
        (((formatTweet wSFeed (some 1) wTweet11).isLiked = true) ↔ v ∈ t.likes) ∧
        (((formatTweet wSFeed (some 1) wTweet11).isRetweeted = true) ↔ v ∈ t.retweets)) ∧
      ((some 1 : Option Nat) = none →
        (formatTweet wSFeed (some 1) wTweet11).isLiked = false ∧
        (formatTweet wSFeed (some 1) wTweet11).isRetweeted = false) :=
  (c5_decoration wSFeed (some 1) 1 10 "x").2.1 (formatTweet wSFeed (some 1) wTweet11)
    (by decide)

/-! #### C7: search validation and matching -/

/-- Witness for C1 at the concrete two-user store. -/
theorem c1_witness :
    ∃ s1, follow wS0 1 2 = .ok s1 ∧
      (∃ ub1, findUser s1 2 = some ub1 ∧ 1 ∈ ub1.followers) ∧
      (∃ ua1, findUser s1 1 = some ua1 ∧ 2 ∈ ua1.following) ∧
      ∃ s2, unfollow s1 1 2 = .ok s2 ∧
        findUser s2 2 = some wBob ∧ findUser s2 1 = some wAlice ∧
        1 ∉ wBob.followers ∧ 2 ∉ wAlice.following :=
  c1_follow_unfollow_roundtrip wS0 1 2 wAlice wBob (by decide) (by decide)
    (by decide) (by decide) (by decide)

end Chirp
